import Mathlib

/-
Verification of the probnum `RandomVariable` arithmetic core and the
`probnum.linalg` package surface. The `RandomVariable` implementation itself
is not part of the visible sources (only its test suite and a re-export
module are), so the core is modelled from the specification; the
`probnum.linalg` re-export module is translated directly from its source.
-/

/-- Modelled from the spec: element values of arrays and means. The spec
requires NaN and infinity to be representable and passed through (§4.1), so
values are exact rationals extended with IEEE-style nan, +inf and -inf. -/
inductive FVal where
  | fin (q : ℚ)
  | nan
  | inf
  | ninf

/-- Shorthand embedding of a rational number as a finite value. -/
def fq (x : ℚ) : FVal := .fin x

/-- Modelled from the spec: addition on values, with IEEE-style propagation
of nan and infinities. -/
def FVal.add : FVal → FVal → FVal
  | .nan, _ => .nan
  | _, .nan => .nan
  | .inf, .ninf => .nan
  | .ninf, .inf => .nan
  | .inf, _ => .inf
  | _, .inf => .inf
  | .ninf, _ => .ninf
  | _, .ninf => .ninf
  | .fin a, .fin b => .fin (a + b)

/-- Modelled from the spec: multiplication on values, with IEEE-style
propagation of nan and signed infinities. -/
def FVal.mul : FVal → FVal → FVal
  | .nan, _ => .nan
  | _, .nan => .nan
  | .inf, .fin q => if q = 0 then .nan else if 0 < q then .inf else .ninf
  | .fin q, .inf => if q = 0 then .nan else if 0 < q then .inf else .ninf
  | .ninf, .fin q => if q = 0 then .nan else if 0 < q then .ninf else .inf
  | .fin q, .ninf => if q = 0 then .nan else if 0 < q then .ninf else .inf
  | .inf, .inf => .inf
  | .inf, .ninf => .ninf
  | .ninf, .inf => .ninf
  | .ninf, .ninf => .inf
  | .fin a, .fin b => .fin (a * b)

/-- Modelled from the spec: negation on values. -/
def FVal.neg : FVal → FVal
  | .fin q => .fin (-q)
  | .nan => .nan
  | .inf => .ninf
  | .ninf => .inf

/-- Modelled from the spec: subtraction on values. -/
def FVal.sub (a b : FVal) : FVal := a.add b.neg

/-- A 1-D array of values. -/
abbrev Vec := List FVal

/-- A 2-D array of values, stored as a list of rows. -/
abbrev Mat := List (List FVal)

/-- Dot product of two vectors. -/
def dotV (u v : Vec) : FVal := (List.zipWith FVal.mul u v).foldr FVal.add (.fin 0)

/-- Number of columns of a matrix (length of its first row). -/
def matCols (A : Mat) : Nat := (A.headD []).length

/-- Transpose of a matrix. -/
def Mat.transpose (A : Mat) : Mat :=
  (List.range (matCols A)).map (fun j => A.map (fun r => r.getD j (FVal.fin 0)))

/-- Matrix product. -/
def Mat.mul (A B : Mat) : Mat :=
  A.map (fun r => (Mat.transpose B).map (fun c => dotV r c))

/-- Elementwise matrix sum. -/
def Mat.add (A B : Mat) : Mat := List.zipWith (List.zipWith FVal.add) A B

/-- Scalar multiple of a matrix. -/
def Mat.smul (a : FVal) (A : Mat) : Mat := A.map (List.map (FVal.mul a))

/-- Kronecker product of two matrices. -/
def Mat.kron (A B : Mat) : Mat :=
  (A.map (fun ra =>
    B.map (fun rb => (ra.map (fun a => rb.map (fun b => FVal.mul a b))).flatten))).flatten

/-- Identity matrix. -/
def eyeM (n : Nat) : Mat :=
  (List.range n).map (fun i => (List.range n).map (fun j => if i = j then FVal.fin 1 else FVal.fin 0))

/-- All-ones matrix. -/
def onesM (m n : Nat) : Mat := List.replicate m (List.replicate n (FVal.fin 1))

/-- All-zeros matrix. -/
def zeroM (m n : Nat) : Mat := List.replicate m (List.replicate n (FVal.fin 0))

/-- A vector viewed as an n-by-1 column matrix. -/
def colVec (v : Vec) : Mat := v.map (fun a => [a])

/-- Reshape a flat row-major list into an m-by-n matrix. -/
def reshapeMat (m n : Nat) (xs : Vec) : Mat :=
  (List.range m).map (fun i => (xs.drop (i * n)).take n)

/-- Modelled from the spec: a covariance representation. Covariances can be
structured operators (dense, symmetric Kronecker, or compositions produced
by arithmetic); they are densified only through the todense accessor,
never eagerly (§4.2, §9). -/
inductive CovOp where
  | dense (D : Mat)
  | symKron (A B : Mat)
  | scaled (a : FVal) (C : CovOp)
  | congruence (X : Mat) (C : CovOp)
  | conj (A : Mat) (C : CovOp)

/-- Modelled from the spec: the todense accessor of a covariance operator.
The symmetric Kronecker product densifies to (A⊗B + B⊗A)/2; a congruence
X is Xᵀ·C·X; a conjugation by A is A·C·Aᵀ; scaling is elementwise. -/
def CovOp.todense : CovOp → Mat
  | .dense D => D
  | .symKron A B => Mat.smul (fq (1/2)) (Mat.add (Mat.kron A B) (Mat.kron B A))
  | .scaled a C => Mat.smul a C.todense
  | .congruence X C => Mat.mul (Mat.mul (Mat.transpose X) C.todense) X
  | .conj A C => Mat.mul (Mat.mul A C.todense) (Mat.transpose A)

/-- Modelled from the spec: element dtypes of a random variable. -/
inductive DType where
  | int
  | float

/-- Modelled from the spec: a distribution exposes a shape, a (row-major
flattened) mean matching the shape, and a covariance representation (§3). -/
structure ProbDist where
  shape : List Nat
  mean : Vec
  cov : CovOp

/-- Modelled from the spec: a Normal distribution over vectors, with a dense
covariance matrix. -/
def NormalVec (mean : Vec) (cov : Mat) : ProbDist := ⟨[mean.length], mean, .dense cov⟩

/-- Modelled from the spec: a Normal distribution over matrices, with a
structured covariance operator over the flattened realization. -/
def NormalMat (mean : Mat) (cov : CovOp) : ProbDist :=
  ⟨[mean.length, matCols mean], mean.flatten, cov⟩

/-- Modelled from the spec: the SymmetricKronecker structured covariance
operator used for matrix-variate Normal distributions. -/
def SymmetricKronecker (A B : Mat) : CovOp := .symKron A B

/-- Modelled from the spec: the MatrixMult linear operator, wrapping an
explicit matrix. -/
structure MatrixMult where
  A : Mat

/-- Modelled from the spec: a RandomVariable has a shape, a dtype and an
optional distribution (§3). -/
structure RandomVariable where
  shape : List Nat
  dtype : DType
  dist : Option ProbDist

/-- Modelled from the spec: error classes surfaced by construction and
arithmetic (§7). -/
inductive RVError where
  | valueError
  | shapeMismatch
  | unsupported
  | missingDistribution

/-- Product of the entries of a shape. -/
def prodShape (s : List Nat) : Nat := s.foldr (· * ·) 1

/-- Modelled from the spec: the RandomVariable constructor (§4.1). With no
arguments it fails with a ValueError-class error; with only a dtype it
produces a degenerate shape-() variable with no distribution; with a
distribution, shape and dtype default to the distribution and an explicit
compatible shape reinterprets the flat moments. -/
def mkRandomVariable (shape : Option (List Nat)) (dtype : Option DType)
    (dist : Option ProbDist) : Except RVError RandomVariable :=
  match dist with
  | some d =>
      let s := shape.getD d.shape
      if prodShape s = prodShape d.shape then
        .ok ⟨s, dtype.getD .float, some ⟨s, d.mean, d.cov⟩⟩
      else .error .shapeMismatch
  | none =>
      match shape, dtype with
      | none, none => .error .valueError
      | none, some dt => .ok ⟨[], dt, none⟩
      | some s, dt => .ok ⟨s, dt.getD .float, none⟩

/-- Mean accessor of a random variable (flattened row-major). -/
def RandomVariable.meanArr (R : RandomVariable) : Option Vec := R.dist.map ProbDist.mean

/-- Covariance accessor of a random variable. -/
def RandomVariable.covArr (R : RandomVariable) : Option CovOp := R.dist.map ProbDist.cov

/-- Mean accessor of a matrix-variate random variable, reshaped to its
2-D shape. -/
def RandomVariable.meanMat (R : RandomVariable) : Option Mat :=
  match R.shape, R.dist with
  | [m, n], some d => some (reshapeMat m n d.mean)
  | _, _ => none

/-- Modelled from the spec: the operand kinds of random variable
arithmetic, resolved by a closed tagged-variant dispatch (§9). -/
inductive Operand where
  | scalar (a : FVal)
  | array (v : Vec)
  | matrix (A : Mat)
  | linop (L : MatrixMult)

/-- Broadcast two dimensions under standard array broadcasting rules. -/
def broadcastDim : Nat → Nat → Option Nat
  | 1, n => some n
  | m, 1 => some m
  | m, n => if m = n then some m else none

/-- Broadcast two already-reversed shapes dimension by dimension. -/
def bcastRev : List Nat → List Nat → Option (List Nat)
  | [], t => some t
  | s, [] => some s
  | a :: s, b :: t => do
      let d ← broadcastDim a b
      let r ← bcastRev s t
      some (d :: r)

/-- Modelled from the spec: broadcast of two shapes, aligned from the
trailing dimension (§4.2). -/
def broadcastShape (s t : List Nat) : Option (List Nat) :=
  (bcastRev s.reverse t.reverse).map List.reverse

/-- Modelled from the spec: asrandvar coerces a plain scalar or array into a
degenerate RandomVariable whose distribution has zero variance; values
(nan and infinity included) are passed through (§4.1). -/
def asrandvar : Operand → RandomVariable
  | .scalar v => ⟨[], .float, some ⟨[], [v], .dense [[FVal.fin 0]]⟩⟩
  | .array v => ⟨[v.length], .float, some ⟨[v.length], v, .dense (zeroM v.length v.length)⟩⟩
  | .matrix A =>
      ⟨[A.length, matCols A], .float,
        some ⟨[A.length, matCols A], A.flatten,
          .dense (zeroM (A.length * matCols A) (A.length * matCols A))⟩⟩
  | .linop L =>
      ⟨[L.A.length, matCols L.A], .float,
        some ⟨[L.A.length, matCols L.A], L.A.flatten,
          .dense (zeroM (L.A.length * matCols L.A) (L.A.length * matCols L.A))⟩⟩

/-- Modelled from the spec: addition of a constant to a random variable.
The shape is the broadcast of the operand shapes, the mean is shifted and
the covariance is unchanged (shift-invariance, §4.2). -/
def RandomVariable.addConst (R : RandomVariable) (C : Operand) :
    Except RVError RandomVariable :=
  match R.dist with
  | none => .error .missingDistribution
  | some d =>
    match C with
    | .scalar a =>
        .ok ⟨R.shape, R.dtype, some ⟨R.shape, d.mean.map (fun m => FVal.add m a), d.cov⟩⟩
    | .array v =>
        match broadcastShape R.shape [v.length] with
        | none => .error .shapeMismatch
        | some s =>
          match R.shape with
          | [n] =>
              if v.length = n then
                .ok ⟨s, R.dtype, some ⟨s, List.zipWith FVal.add d.mean v, d.cov⟩⟩
              else if v.length = 1 then
                .ok ⟨s, R.dtype, some ⟨s, d.mean.map (fun m => FVal.add m (v.headD (.fin 0))), d.cov⟩⟩
              else .error .shapeMismatch
          | _ => .error .unsupported
    | _ => .error .unsupported

/-- Modelled from the spec: subtraction of a constant from a random
variable; the mean is shifted and the covariance is unchanged (§4.2). -/
def RandomVariable.subConst (R : RandomVariable) (C : Operand) :
    Except RVError RandomVariable :=
  match R.dist with
  | none => .error .missingDistribution
  | some d =>
    match C with
    | .scalar a =>
        .ok ⟨R.shape, R.dtype, some ⟨R.shape, d.mean.map (fun m => FVal.sub m a), d.cov⟩⟩
    | .array v =>
        match broadcastShape R.shape [v.length] with
        | none => .error .shapeMismatch
        | some s =>
          match R.shape with
          | [n] =>
              if v.length = n then
                .ok ⟨s, R.dtype, some ⟨s, List.zipWith FVal.sub d.mean v, d.cov⟩⟩
              else if v.length = 1 then
                .ok ⟨s, R.dtype, some ⟨s, d.mean.map (fun m => FVal.sub m (v.headD (.fin 0))), d.cov⟩⟩
              else .error .shapeMismatch
          | _ => .error .unsupported
    | _ => .error .unsupported

/-- Modelled from the spec: reflected addition (a constant on the left);
addition of constants is commutative, so it delegates to addConst (§4.2). -/
def raddConst (C : Operand) (R : RandomVariable) : Except RVError RandomVariable :=
  R.addConst C

/-- Modelled from the spec: multiplication of a random variable by a scalar
α; the shape is unchanged, the mean is scaled by α and the covariance by α²
(§4.2). -/
def RandomVariable.scalarMul (R : RandomVariable) (α : FVal) :
    Except RVError RandomVariable :=
  match R.dist with
  | none => .error .missingDistribution
  | some d =>
      .ok ⟨R.shape, R.dtype,
        some ⟨R.shape, d.mean.map (fun m => FVal.mul α m), .scaled (FVal.mul α α) d.cov⟩⟩

/-- Modelled from the spec: R @ C with the random variable on the left.
For 1-D R and a 1-D vector x the result is the scalar random variable with
mean x·mean(R) and covariance xᵀ·cov(R)·x; for an (m,n)-shaped R and an
n-by-1 column x the result has shape (m,1), mean mean(R)·x and covariance
(I_m ⊗ x)ᵀ·cov(R)·(I_m ⊗ x) (§4.2). -/
def RandomVariable.matmul (R : RandomVariable) (C : Operand) :
    Except RVError RandomVariable :=
  match R.dist with
  | none => .error .missingDistribution
  | some d =>
    match C, R.shape with
    | .array x, [n] =>
        if x.length = n then
          .ok ⟨[], R.dtype, some ⟨[], [dotV x d.mean], .congruence (colVec x) d.cov⟩⟩
        else .error .shapeMismatch
    | .matrix X, [m, n] =>
        if X.length == n && X.all (fun r => r.length == 1) then
          .ok ⟨[m, 1], R.dtype,
            some ⟨[m, 1], (Mat.mul (reshapeMat m n d.mean) X).flatten,
              .congruence (Mat.kron (eyeM m) X) d.cov⟩⟩
        else .error .shapeMismatch
    | _, _ => .error .unsupported

/-- Modelled from the spec: C @ R with the constant on the left. For a 1-D
vector x the result is the scalar dot product; for an m-by-n matrix A (or a
MatrixMult linear operator) and 1-D R the result has shape (m,), mean
A·mean(R) and covariance A·cov(R)·Aᵀ kept as a lazy operator composition
(§4.2). -/
def RandomVariable.rmatmul (C : Operand) (R : RandomVariable) :
    Except RVError RandomVariable :=
  match R.dist with
  | none => .error .missingDistribution
  | some d =>
    match C, R.shape with
    | .array x, [n] =>
        if x.length = n then
          .ok ⟨[], R.dtype, some ⟨[], [dotV x d.mean], .congruence (colVec x) d.cov⟩⟩
        else .error .shapeMismatch
    | .matrix A, [n] =>
        if matCols A = n then
          .ok ⟨[A.length], R.dtype,
            some ⟨[A.length], (Mat.mul A (colVec d.mean)).flatten, .conj A d.cov⟩⟩
        else .error .shapeMismatch
    | .linop L, [n] =>
        if matCols L.A = n then
          .ok ⟨[L.A.length], R.dtype,
            some ⟨[L.A.length], (Mat.mul L.A (colVec d.mean)).flatten, .conj L.A d.cov⟩⟩
        else .error .shapeMismatch
    | _, _ => .error .unsupported

/- Test fixtures, translated from tests/test_prob/test_randomvariable.py. -/

/-- Fixture: the Normal distribution with mean [1,2] and covariance
[[2,0],[0,5]] used by the 1-D arithmetic tests. -/
def dist2d : ProbDist := NormalVec [fq 1, fq 2] [[fq 2, fq 0], [fq 0, fq 5]]

/-- Fixture: the shape-(2,) random variable built from dist2d. -/
def rv2d : RandomVariable := ⟨[2], .float, some dist2d⟩

/-- Fixture: the 2-by-2 mean matrix [[-2,.3],[0,1]] of the matrix-variate
test variable. -/
def meanM : Mat := [[fq (-2), fq (3/10)], [fq 0, fq 1]]

/-- Fixture: the SymmetricKronecker(I₂, ones(2,2)) covariance of the
matrix-variate test variable. -/
def covK : CovOp := SymmetricKronecker (eyeM 2) (onesM 2 2)

/-- Fixture: the shape-(2,2) matrix-variate random variable. -/
def rv2x2 : RandomVariable := ⟨[2, 2], .float, some ⟨[2, 2], meanM.flatten, covK⟩⟩

/-- Fixture: the column vector x = [[1],[-4]]. -/
def xcol : Mat := [[fq 1], [fq (-4)]]

/-- Fixture: X = kron(eye(2), x), written out. -/
def XC1 : Mat := [[fq 1, fq 0], [fq (-4), fq 0], [fq 0, fq 1], [fq 0, fq (-4)]]

/-- The result of rv2x2 @ xcol, with its mean evaluated to numbers. -/
def yC1 : RandomVariable :=
  ⟨[2, 1], .float, some ⟨[2, 1], [fq (-16/5), fq (-4)], .congruence XC1 covK⟩⟩

/-- The dense 2-by-2 covariance Xᵀ·cov·X of yC1, evaluated to numbers. -/
def covC1dense : Mat := [[fq 13, fq (17/2)], [fq (17/2), fq 13]]

/- The probnum.linalg package surface, translated from
src/src/probnum/linalg/the package init module. -/

/-- The modules star-imported by the probnum.linalg package init module. -/
def probnumLinalgStarImports : List String := ["probnum.linalg.linearsolvers"]

/-- The public-name list declared by the probnum.linalg package init
module. -/
def probnumLinalgAll : List String :=
  ["problinsolve", "bayescg", "ProbabilisticLinearSolver", "GeneralMatrixBasedSolver",
   "SymmetricMatrixBasedSolver", "SolutionBasedSolver"]

/-- Python star-import semantics: a module that declares a public-name list
exposes exactly those names to a star import. -/
def starImportExposes (allNames : List String) : List String := allNames

/-- C7: calling the RandomVariable constructor with shape, dtype and
distribution all omitted raises a ValueError-class construction error. -/
theorem C7_empty_init_value_error :
    mkRandomVariable none none none = .error RVError.valueError := rfl

/-- C8: constructing a RandomVariable with only a dtype succeeds and
produces a degenerate random variable with shape () and no distribution. -/
theorem C8_dtype_only_init :
    mkRandomVariable none (some DType.int) none
      = .ok (⟨[], DType.int, none⟩ : RandomVariable) := rfl

/-- C9: asrandvar on any scalar (nan and infinity included) and on any
array succeeds and produces a degenerate RandomVariable whose distribution
has zero variance, with the values passed through as the mean. -/
theorem C9_asrandvar_degenerate (v : FVal) (a : Vec) :
    (asrandvar (Operand.scalar v)).shape = []
    ∧ (asrandvar (Operand.scalar v)).meanArr = some [v]
    ∧ ((asrandvar (Operand.scalar v)).covArr.map CovOp.todense) = some [[FVal.fin 0]]
    ∧ (asrandvar (Operand.array a)).shape = [a.length]
    ∧ (asrandvar (Operand.array a)).meanArr = some a
    ∧ ((asrandvar (Operand.array a)).covArr.map CovOp.todense) = some (zeroM a.length a.length) :=
  ⟨rfl, rfl, rfl, rfl, rfl, rfl⟩

/-- C10: the probnum.linalg package star-imports
probnum.linalg.linearsolvers and declares exactly the six public names in
its public-name list, so a star import exposes exactly that set. -/
theorem C10_linalg_reexports :
    starImportExposes probnumLinalgAll
      = ["problinsolve", "bayescg", "ProbabilisticLinearSolver", "GeneralMatrixBasedSolver",
         "SymmetricMatrixBasedSolver", "SolutionBasedSolver"]
    ∧ probnumLinalgAll.length = 6
    ∧ probnumLinalgAll.Nodup
    ∧ probnumLinalgStarImports = ["probnum.linalg.linearsolvers"] := by
  refine ⟨rfl, rfl, ?_, rfl⟩
  decide

/-- C2: for every scalar α (nan and infinity included) and every
distribution-backed RandomVariable of shape (2,), α·R keeps the shape,
scales the mean by α and scales the covariance by α². -/
theorem C2_scalar_mult (α : FVal) (R : RandomVariable) (d : ProbDist)
    (hd : R.dist = some d) (hs : R.shape = [2]) :
    ∃ z, R.scalarMul α = .ok z ∧ z.shape = R.shape
      ∧ z.meanArr = some (d.mean.map (fun m => FVal.mul α m))
      ∧ z.covArr = some (CovOp.scaled (FVal.mul α α) d.cov)
      ∧ (CovOp.scaled (FVal.mul α α) d.cov).todense
          = Mat.smul (FVal.mul α α) d.cov.todense := by
  obtain ⟨s, dt, di⟩ := R
  dsimp only at hd hs
  subst hd; subst hs
  exact ⟨_, rfl, rfl, rfl, rfl, rfl⟩

/-- Witness for C2 at the nan scalar and the fixture variable rv2d. -/
theorem C2_scalar_mult_witness :
    ∃ z, rv2d.scalarMul FVal.nan = .ok z ∧ z.shape = rv2d.shape
      ∧ z.meanArr = some (dist2d.mean.map (fun m => FVal.mul FVal.nan m))
      ∧ z.covArr = some (CovOp.scaled (FVal.mul FVal.nan FVal.nan) dist2d.cov)
      ∧ (CovOp.scaled (FVal.mul FVal.nan FVal.nan) dist2d.cov).todense
          = Mat.smul (FVal.mul FVal.nan FVal.nan) dist2d.cov.todense :=
  C2_scalar_mult FVal.nan rv2d dist2d rfl rfl

/-- C3: for every 2-element constant vector and every distribution-backed
RandomVariable of shape (2,), R @ x and x @ R are scalar (shape ())
random variables with the same distribution, mean x·mean(R) and covariance
xᵀ·cov(R)·x. -/
theorem C3_dot_product (x1 x2 : FVal) (R : RandomVariable) (d : ProbDist)
    (hd : R.dist = some d) (hs : R.shape = [2]) :
    ∃ z1 z2, R.matmul (Operand.array [x1, x2]) = .ok z1
      ∧ RandomVariable.rmatmul (Operand.array [x1, x2]) R = .ok z2
      ∧ z1.shape = [] ∧ z2.shape = [] ∧ z1.dist = z2.dist
      ∧ z1.meanArr = some [dotV [x1, x2] d.mean]
      ∧ z1.covArr = some (CovOp.congruence (colVec [x1, x2]) d.cov)
      ∧ (CovOp.congruence (colVec [x1, x2]) d.cov).todense
          = Mat.mul (Mat.mul (Mat.transpose (colVec [x1, x2])) d.cov.todense)
              (colVec [x1, x2]) := by
  obtain ⟨s, dt, di⟩ := R
  dsimp only at hd hs
  subst hd; subst hs
  exact ⟨_, _, rfl, rfl, rfl, rfl, rfl, rfl, rfl, rfl⟩

/-- Witness for C3 at x = [1,2] and the fixture variable rv2d. -/
theorem C3_dot_product_witness :
    ∃ z1 z2, rv2d.matmul (Operand.array [fq 1, fq 2]) = .ok z1
      ∧ RandomVariable.rmatmul (Operand.array [fq 1, fq 2]) rv2d = .ok z2
      ∧ z1.shape = [] ∧ z2.shape = [] ∧ z1.dist = z2.dist
      ∧ z1.meanArr = some [dotV [fq 1, fq 2] dist2d.mean]
      ∧ z1.covArr = some (CovOp.congruence (colVec [fq 1, fq 2]) dist2d.cov)
      ∧ (CovOp.congruence (colVec [fq 1, fq 2]) dist2d.cov).todense
          = Mat.mul (Mat.mul (Mat.transpose (colVec [fq 1, fq 2])) dist2d.cov.todense)
              (colVec [fq 1, fq 2]) :=
  C3_dot_product (fq 1) (fq 2) rv2d dist2d rfl rfl

/-- C4: for every constant 2-by-2 matrix A and every distribution-backed
RandomVariable of shape (2,), A @ R has leading dimension A.length = 2,
mean A·mean(R) and covariance A·cov(R)·Aᵀ. -/
theorem C4_matrix_mult (a b c e : FVal) (R : RandomVariable) (d : ProbDist)
    (hd : R.dist = some d) (hs : R.shape = [2]) :
    ∃ y, RandomVariable.rmatmul (Operand.matrix [[a, b], [c, e]]) R = .ok y
      ∧ y.shape = [2] ∧ ([[a, b], [c, e]] : Mat).length = 2
      ∧ y.meanArr = some ((Mat.mul [[a, b], [c, e]] (colVec d.mean)).flatten)
      ∧ y.covArr = some (CovOp.conj [[a, b], [c, e]] d.cov)
      ∧ (CovOp.conj [[a, b], [c, e]] d.cov).todense
          = Mat.mul (Mat.mul [[a, b], [c, e]] d.cov.todense)
              (Mat.transpose [[a, b], [c, e]]) := by
  obtain ⟨s, dt, di⟩ := R
  dsimp only at hd hs
  subst hd; subst hs
  exact ⟨_, rfl, rfl, rfl, rfl, rfl, rfl⟩

/-- Witness for C4 at the test matrix [[1,2],[3,2]] and the fixture
variable rv2d. -/
theorem C4_matrix_mult_witness :
    ∃ y, RandomVariable.rmatmul (Operand.matrix [[fq 1, fq 2], [fq 3, fq 2]]) rv2d = .ok y
      ∧ y.shape = [2] ∧ ([[fq 1, fq 2], [fq 3, fq 2]] : Mat).length = 2
      ∧ y.meanArr = some ((Mat.mul [[fq 1, fq 2], [fq 3, fq 2]] (colVec dist2d.mean)).flatten)
      ∧ y.covArr = some (CovOp.conj [[fq 1, fq 2], [fq 3, fq 2]] dist2d.cov)
      ∧ (CovOp.conj [[fq 1, fq 2], [fq 3, fq 2]] dist2d.cov).todense
          = Mat.mul (Mat.mul [[fq 1, fq 2], [fq 3, fq 2]] dist2d.cov.todense)
              (Mat.transpose [[fq 1, fq 2], [fq 3, fq 2]]) :=
  C4_matrix_mult (fq 1) (fq 2) (fq 3) (fq 2) rv2d dist2d rfl rfl

/-- C5: for every scalar or 2-vector constant and every distribution-backed
RandomVariable of shape (2,), C + R, R + C and R - C are random variables
whose shape is the broadcast shape R.shape, whose mean is mean(R) ± C and
whose covariance is unchanged; both operand orders give the same result. -/
theorem C5_addition_shift_invariance (C : Operand) (R : RandomVariable) (d : ProbDist)
    (hC : (∃ a, C = Operand.scalar a) ∨ ∃ v1 v2, C = Operand.array [v1, v2])
    (hd : R.dist = some d) (hs : R.shape = [2]) :
    ∃ z w, R.addConst C = .ok z ∧ raddConst C R = .ok z ∧ R.subConst C = .ok w
      ∧ z.shape = R.shape ∧ w.shape = R.shape
      ∧ z.covArr = some d.cov ∧ w.covArr = some d.cov
      ∧ (∀ a, C = Operand.scalar a →
          z.meanArr = some (d.mean.map (fun m => FVal.add m a))
          ∧ w.meanArr = some (d.mean.map (fun m => FVal.sub m a)))
      ∧ (∀ v, C = Operand.array v →
          z.meanArr = some (List.zipWith FVal.add d.mean v)
          ∧ w.meanArr = some (List.zipWith FVal.sub d.mean v)) := by
  obtain ⟨s, dt, di⟩ := R
  dsimp only at hd hs
  subst hd; subst hs
  rcases hC with ⟨a, rfl⟩ | ⟨v1, v2, rfl⟩
  · refine ⟨_, _, rfl, rfl, rfl, rfl, rfl, rfl, rfl, ?_, ?_⟩
    · intro a2 h
      cases h
      exact ⟨rfl, rfl⟩
    · intro v h
      exact Operand.noConfusion h
  · refine ⟨_, _, rfl, rfl, rfl, rfl, rfl, rfl, rfl, ?_, ?_⟩
    · intro a2 h
      exact Operand.noConfusion h
    · intro v h
      cases h
      exact ⟨rfl, rfl⟩

/-- Witness for C5 at the test array [1,-2.5] and the fixture variable
rv2d. -/
theorem C5_addition_shift_invariance_witness :
    ∃ z w, rv2d.addConst (Operand.array [fq 1, fq (-5/2)]) = .ok z
      ∧ raddConst (Operand.array [fq 1, fq (-5/2)]) rv2d = .ok z
      ∧ rv2d.subConst (Operand.array [fq 1, fq (-5/2)]) = .ok w
      ∧ z.shape = rv2d.shape ∧ w.shape = rv2d.shape
      ∧ z.covArr = some dist2d.cov ∧ w.covArr = some dist2d.cov
      ∧ (∀ a, Operand.array [fq 1, fq (-5/2)] = Operand.scalar a →
          z.meanArr = some (dist2d.mean.map (fun m => FVal.add m a))
          ∧ w.meanArr = some (dist2d.mean.map (fun m => FVal.sub m a)))
      ∧ (∀ v, Operand.array [fq 1, fq (-5/2)] = Operand.array v →
          z.meanArr = some (List.zipWith FVal.add dist2d.mean v)
          ∧ w.meanArr = some (List.zipWith FVal.sub dist2d.mean v)) :=
  C5_addition_shift_invariance (Operand.array [fq 1, fq (-5/2)]) rv2d dist2d
    (Or.inr ⟨fq 1, fq (-5/2), rfl⟩) rfl rfl

/-- C6: for every 2-by-2 MatrixMult linear operator L, 2-vector constant
and distribution-backed RandomVariable of shape (2,), L @ R + const has
leading dimension L.A.length; the covariance is the lazy operator
composition L·cov(R)·Lᵀ, which is not a densified matrix but densifies on
demand through todense. -/
theorem C6_linop_apply (a b c e v1 v2 : FVal) (R : RandomVariable) (d : ProbDist)
    (hd : R.dist = some d) (hs : R.shape = [2]) :
    ∃ y, Except.bind (RandomVariable.rmatmul (Operand.linop ⟨[[a, b], [c, e]]⟩) R)
        (fun t => t.addConst (Operand.array [v1, v2])) = .ok y
      ∧ y.shape.headD 0 = (MatrixMult.mk [[a, b], [c, e]]).A.length
      ∧ y.covArr = some (CovOp.conj [[a, b], [c, e]] d.cov)
      ∧ (CovOp.conj [[a, b], [c, e]] d.cov).todense
          = Mat.mul (Mat.mul [[a, b], [c, e]] d.cov.todense)
              (Mat.transpose [[a, b], [c, e]])
      ∧ ∀ M, CovOp.conj [[a, b], [c, e]] d.cov ≠ CovOp.dense M := by
  obtain ⟨s, dt, di⟩ := R
  dsimp only at hd hs
  subst hd; subst hs
  exact ⟨_, rfl, rfl, rfl, rfl, fun M h => CovOp.noConfusion h⟩

/-- Witness for C6 at the test operator MatrixMult([[1,2],[4,5]]), the
constant [-1,1.1] and the fixture variable rv2d. -/
theorem C6_linop_apply_witness :
    ∃ y, Except.bind (RandomVariable.rmatmul
          (Operand.linop ⟨[[fq 1, fq 2], [fq 4, fq 5]]⟩) rv2d)
        (fun t => t.addConst (Operand.array [fq (-1), fq (11/10)])) = .ok y
      ∧ y.shape.headD 0 = (MatrixMult.mk [[fq 1, fq 2], [fq 4, fq 5]]).A.length
      ∧ y.covArr = some (CovOp.conj [[fq 1, fq 2], [fq 4, fq 5]] dist2d.cov)
      ∧ (CovOp.conj [[fq 1, fq 2], [fq 4, fq 5]] dist2d.cov).todense
          = Mat.mul (Mat.mul [[fq 1, fq 2], [fq 4, fq 5]] dist2d.cov.todense)
              (Mat.transpose [[fq 1, fq 2], [fq 4, fq 5]])
      ∧ ∀ M, CovOp.conj [[fq 1, fq 2], [fq 4, fq 5]] dist2d.cov ≠ CovOp.dense M :=
  C6_linop_apply (fq 1) (fq 2) (fq 4) (fq 5) (fq (-1)) (fq (11/10)) rv2d dist2d rfl rfl

/-- C1: for the matrix-variate fixture R of shape (2,2) with Normal mean
[[-2,.3],[0,1]] and SymmetricKronecker(I₂, ones(2,2)) covariance, and
x = [[1],[-4]]: y = R @ x is a RandomVariable of shape (2,1), its mean
equals mean(R)·x = [[-3.2],[-4]], and its covariance densifies to
Xᵀ·cov(R)·X with X = kron(I₂, x), which evaluates to
[[13, 8.5], [8.5, 13]]. -/
theorem C1_matrix_variate_vector_apply :
    mkRandomVariable (some [2, 2]) none (some (NormalMat meanM covK)) = .ok rv2x2
    ∧ rv2x2.matmul (Operand.matrix xcol) = .ok yC1
    ∧ yC1.shape = [2, 1]
    ∧ yC1.meanMat = some (Mat.mul meanM xcol)
    ∧ Mat.mul meanM xcol = [[fq (-16/5)], [fq (-4)]]
    ∧ Mat.kron (eyeM 2) xcol = XC1
    ∧ (yC1.covArr.map CovOp.todense)
        = some (Mat.mul (Mat.mul (Mat.transpose XC1) covK.todense) XC1)
    ∧ Mat.mul (Mat.mul (Mat.transpose XC1) covK.todense) XC1 = covC1dense := by
  refine ⟨rfl, ?_, rfl, ?_, ?_, ?_, rfl, ?_⟩
  · norm_num [RandomVariable.matmul, rv2x2, yC1, meanM, covK, xcol, XC1, fq,
      Mat.mul, Mat.transpose, Mat.kron, matCols, dotV, colVec, reshapeMat, eyeM,
      List.range_succ, FVal.mul, FVal.add, SymmetricKronecker]
  · norm_num [RandomVariable.meanMat, yC1, meanM, xcol, fq, Mat.mul, Mat.transpose,
      matCols, dotV, reshapeMat, List.range_succ, FVal.mul, FVal.add]
  · norm_num [meanM, xcol, fq, Mat.mul, Mat.transpose, matCols, dotV,
      List.range_succ, FVal.mul, FVal.add]
  · norm_num [Mat.kron, eyeM, xcol, XC1, fq, List.range_succ, FVal.mul]
  · norm_num [covK, XC1, fq, SymmetricKronecker, CovOp.todense, covC1dense,
      Mat.mul, Mat.transpose, Mat.kron, Mat.add, Mat.smul, matCols, dotV, eyeM,
      onesM, List.range_succ, List.replicate, List.flatten, List.headD,
      List.head?, List.getD, FVal.mul, FVal.add]
